import Mathlib

/-!
Verification of the coupling-element matrix formulation of `ross`
(`ross/coupling_element.py`).

The module defines two element classes, `CouplingElement` (4 degrees of
freedom per station, 8x8 matrices) and `CouplingElement6DoF` (6 degrees of
freedom per station, 12x12 matrices).  Each is a plain parameter record
built by its constructor; the matrix methods `M`, `K`, `C`, `G` (and `Kst`
for the 6-DoF variant) are pure functions of the record.

Embedding choices:
* Python floats are modelled as exact rationals (`ℚ`); every claim under
  scrutiny is structural/algebraic, not about rounding.
* `numpy` square arrays of size 8 and 12 are `Matrix (Fin 8) (Fin 8) ℚ`
  and `Matrix (Fin 12) (Fin 12) ℚ`.
* the numpy idiom `Z = np.zeros((2k, 2k)); Z[:k,:k] = A; Z[k:,k:] = B` is
  the block assembler `asm8` / `asm12` below.
* Python truthiness in `float(Id_l) if Id_l else Ip_l / 2` is the test
  `Id_l ≠ 0`.
* optional arguments (`L`, `n`, `tag`) are `Option` values; `n_r = n + 1`
  is assigned only when `n` is present, as in the source.
-/

namespace Ross

open Matrix

/-! ### Vector-literal indexing lemmas

Small `rfl` lemmas evaluating `![...]` at numeric indices; Mathlib's simp
set only covers indices below four. -/

section VecIndex
variable {α : Type}

@[simp] theorem vl4_0 (a0 a1 a2 a3 : α) : ![a0, a1, a2, a3] (0 : Fin 4) = a0 := rfl
@[simp] theorem vl4_1 (a0 a1 a2 a3 : α) : ![a0, a1, a2, a3] (1 : Fin 4) = a1 := rfl
@[simp] theorem vl4_2 (a0 a1 a2 a3 : α) : ![a0, a1, a2, a3] (2 : Fin 4) = a2 := rfl
@[simp] theorem vl4_3 (a0 a1 a2 a3 : α) : ![a0, a1, a2, a3] (3 : Fin 4) = a3 := rfl

@[simp] theorem vl6_0 (a0 a1 a2 a3 a4 a5 : α) : ![a0, a1, a2, a3, a4, a5] (0 : Fin 6) = a0 := rfl
@[simp] theorem vl6_1 (a0 a1 a2 a3 a4 a5 : α) : ![a0, a1, a2, a3, a4, a5] (1 : Fin 6) = a1 := rfl
@[simp] theorem vl6_2 (a0 a1 a2 a3 a4 a5 : α) : ![a0, a1, a2, a3, a4, a5] (2 : Fin 6) = a2 := rfl
@[simp] theorem vl6_3 (a0 a1 a2 a3 a4 a5 : α) : ![a0, a1, a2, a3, a4, a5] (3 : Fin 6) = a3 := rfl
@[simp] theorem vl6_4 (a0 a1 a2 a3 a4 a5 : α) : ![a0, a1, a2, a3, a4, a5] (4 : Fin 6) = a4 := rfl
@[simp] theorem vl6_5 (a0 a1 a2 a3 a4 a5 : α) : ![a0, a1, a2, a3, a4, a5] (5 : Fin 6) = a5 := rfl

@[simp] theorem vl8_0 (a0 a1 a2 a3 a4 a5 a6 a7 : α) :
    ![a0, a1, a2, a3, a4, a5, a6, a7] (0 : Fin 8) = a0 := rfl
@[simp] theorem vl8_1 (a0 a1 a2 a3 a4 a5 a6 a7 : α) :
    ![a0, a1, a2, a3, a4, a5, a6, a7] (1 : Fin 8) = a1 := rfl
@[simp] theorem vl8_2 (a0 a1 a2 a3 a4 a5 a6 a7 : α) :
    ![a0, a1, a2, a3, a4, a5, a6, a7] (2 : Fin 8) = a2 := rfl
@[simp] theorem vl8_3 (a0 a1 a2 a3 a4 a5 a6 a7 : α) :
    ![a0, a1, a2, a3, a4, a5, a6, a7] (3 : Fin 8) = a3 := rfl
@[simp] theorem vl8_4 (a0 a1 a2 a3 a4 a5 a6 a7 : α) :
    ![a0, a1, a2, a3, a4, a5, a6, a7] (4 : Fin 8) = a4 := rfl
@[simp] theorem vl8_5 (a0 a1 a2 a3 a4 a5 a6 a7 : α) :
    ![a0, a1, a2, a3, a4, a5, a6, a7] (5 : Fin 8) = a5 := rfl
@[simp] theorem vl8_6 (a0 a1 a2 a3 a4 a5 a6 a7 : α) :
    ![a0, a1, a2, a3, a4, a5, a6, a7] (6 : Fin 8) = a6 := rfl
@[simp] theorem vl8_7 (a0 a1 a2 a3 a4 a5 a6 a7 : α) :
    ![a0, a1, a2, a3, a4, a5, a6, a7] (7 : Fin 8) = a7 := rfl

@[simp] theorem vl12_0 (a0 a1 a2 a3 a4 a5 a6 a7 a8 a9 a10 a11 : α) :
    ![a0, a1, a2, a3, a4, a5, a6, a7, a8, a9, a10, a11] (0 : Fin 12) = a0 := rfl
@[simp] theorem vl12_1 (a0 a1 a2 a3 a4 a5 a6 a7 a8 a9 a10 a11 : α) :
    ![a0, a1, a2, a3, a4, a5, a6, a7, a8, a9, a10, a11] (1 : Fin 12) = a1 := rfl
@[simp] theorem vl12_2 (a0 a1 a2 a3 a4 a5 a6 a7 a8 a9 a10 a11 : α) :
    ![a0, a1, a2, a3, a4, a5, a6, a7, a8, a9, a10, a11] (2 : Fin 12) = a2 := rfl
@[simp] theorem vl12_3 (a0 a1 a2 a3 a4 a5 a6 a7 a8 a9 a10 a11 : α) :
    ![a0, a1, a2, a3, a4, a5, a6, a7, a8, a9, a10, a11] (3 : Fin 12) = a3 := rfl
@[simp] theorem vl12_4 (a0 a1 a2 a3 a4 a5 a6 a7 a8 a9 a10 a11 : α) :
    ![a0, a1, a2, a3, a4, a5, a6, a7, a8, a9, a10, a11] (4 : Fin 12) = a4 := rfl
@[simp] theorem vl12_5 (a0 a1 a2 a3 a4 a5 a6 a7 a8 a9 a10 a11 : α) :
    ![a0, a1, a2, a3, a4, a5, a6, a7, a8, a9, a10, a11] (5 : Fin 12) = a5 := rfl
@[simp] theorem vl12_6 (a0 a1 a2 a3 a4 a5 a6 a7 a8 a9 a10 a11 : α) :
    ![a0, a1, a2, a3, a4, a5, a6, a7, a8, a9, a10, a11] (6 : Fin 12) = a6 := rfl
@[simp] theorem vl12_7 (a0 a1 a2 a3 a4 a5 a6 a7 a8 a9 a10 a11 : α) :
    ![a0, a1, a2, a3, a4, a5, a6, a7, a8, a9, a10, a11] (7 : Fin 12) = a7 := rfl
@[simp] theorem vl12_8 (a0 a1 a2 a3 a4 a5 a6 a7 a8 a9 a10 a11 : α) :
    ![a0, a1, a2, a3, a4, a5, a6, a7, a8, a9, a10, a11] (8 : Fin 12) = a8 := rfl
@[simp] theorem vl12_9 (a0 a1 a2 a3 a4 a5 a6 a7 a8 a9 a10 a11 : α) :
    ![a0, a1, a2, a3, a4, a5, a6, a7, a8, a9, a10, a11] (9 : Fin 12) = a9 := rfl
@[simp] theorem vl12_10 (a0 a1 a2 a3 a4 a5 a6 a7 a8 a9 a10 a11 : α) :
    ![a0, a1, a2, a3, a4, a5, a6, a7, a8, a9, a10, a11] (10 : Fin 12) = a10 := rfl
@[simp] theorem vl12_11 (a0 a1 a2 a3 a4 a5 a6 a7 a8 a9 a10 a11 : α) :
    ![a0, a1, a2, a3, a4, a5, a6, a7, a8, a9, a10, a11] (11 : Fin 12) = a11 := rfl

end VecIndex

/-! ### Block assembly

`asm8 A B` is `Z = np.zeros((8, 8)); Z[:4, :4] = A; Z[4:, 4:] = B`,
and `asm12` the same with 6x6 blocks. -/

/-- Place two 4x4 blocks on the diagonal of an 8x8 zero matrix. -/
def asm8 (A B : Matrix (Fin 4) (Fin 4) ℚ) : Matrix (Fin 8) (Fin 8) ℚ :=
  Matrix.of fun i j =>
    if hi : (i : ℕ) < 4 then
      if hj : (j : ℕ) < 4 then A ⟨i, hi⟩ ⟨j, hj⟩ else 0
    else
      if hj : (j : ℕ) < 4 then 0
      else B ⟨(i : ℕ) - 4, by omega⟩ ⟨(j : ℕ) - 4, by omega⟩

/-- Place two 6x6 blocks on the diagonal of a 12x12 zero matrix. -/
def asm12 (A B : Matrix (Fin 6) (Fin 6) ℚ) : Matrix (Fin 12) (Fin 12) ℚ :=
  Matrix.of fun i j =>
    if hi : (i : ℕ) < 6 then
      if hj : (j : ℕ) < 6 then A ⟨i, hi⟩ ⟨j, hj⟩ else 0
    else
      if hj : (j : ℕ) < 6 then 0
      else B ⟨(i : ℕ) - 6, by omega⟩ ⟨(j : ℕ) - 6, by omega⟩

/-! ### The 4-DoF coupling element -/

/-- Attribute record of `CouplingElement` exactly as `__init__` leaves it. -/
structure CouplingElement where
  n : Option ℤ
  n_l : Option ℤ
  n_r : Option ℤ
  m_l : ℚ
  m_r : ℚ
  m : ℚ
  Ip_l : ℚ
  Ip_r : ℚ
  Id_l : ℚ
  Id_r : ℚ
  kt_x : ℚ
  kt_y : ℚ
  kr_x : ℚ
  kr_y : ℚ
  ct_x : ℚ
  ct_y : ℚ
  cr_x : ℚ
  cr_y : ℚ
  L : Option ℚ
  tag : Option String
  color : String
  beam_cg : ℚ
  slenderness_ratio : ℚ
  Im : ℚ

/-- Constructor `CouplingElement.__init__`.  Argument order and defaults
follow the Python signature; `Id_l`/`Id_r` follow the truthiness test
`float(Id_l) if Id_l else Ip_l / 2`. -/
def CouplingElement.init (m_l m_r Ip_l Ip_r : ℚ) (Id_l : ℚ := 0) (Id_r : ℚ := 0)
    (kt_x : ℚ := 0) (kt_y : ℚ := 0) (kr_x : ℚ := 0) (kr_y : ℚ := 0)
    (ct_x : ℚ := 0) (ct_y : ℚ := 0) (cr_x : ℚ := 0) (cr_y : ℚ := 0)
    (L : Option ℚ := none) (n : Option ℤ := none) (tag : Option String := none)
    (color : String := "#add8e6") : CouplingElement :=
  { n := n
    n_l := n
    n_r := n.map (fun k => k + 1)
    m_l := m_l
    m_r := m_r
    m := m_l + m_r
    Ip_l := Ip_l
    Ip_r := Ip_r
    Id_l := if Id_l ≠ 0 then Id_l else Ip_l / 2
    Id_r := if Id_r ≠ 0 then Id_r else Ip_r / 2
    kt_x := kt_x
    kt_y := kt_y
    kr_x := kr_x
    kr_y := kr_y
    ct_x := ct_x
    ct_y := ct_y
    cr_x := cr_x
    cr_y := cr_y
    L := L
    tag := tag
    color := color
    beam_cg := 10 ^ 20
    slenderness_ratio := 10 ^ 30
    Im := (if Id_l ≠ 0 then Id_l else Ip_l / 2) + (if Id_r ≠ 0 then Id_r else Ip_r / 2) }

/-- Mass matrix `CouplingElement.M`. -/
def CouplingElement.M (e : CouplingElement) : Matrix (Fin 8) (Fin 8) ℚ :=
  let Ml : Matrix (Fin 4) (Fin 4) ℚ :=
    !![e.m_l, 0, 0, 0;
       0, e.m_l, 0, 0;
       0, 0, e.Id_l, 0;
       0, 0, 0, e.Id_l]
  let Mr : Matrix (Fin 4) (Fin 4) ℚ :=
    !![e.m_r, 0, 0, 0;
       0, e.m_r, 0, 0;
       0, 0, e.Id_r, 0;
       0, 0, 0, e.Id_r]
  asm8 Ml Mr

/-- Stiffness matrix `CouplingElement.K`. -/
def CouplingElement.K (e : CouplingElement) : Matrix (Fin 8) (Fin 8) ℚ :=
  let k1 := e.kt_x
  let k2 := e.kt_y
  let k3 := e.kr_x
  let k4 := e.kr_y
  !![k1, 0, 0, 0, -k1, 0, 0, 0;
     0, k2, 0, 0, 0, -k2, 0, 0;
     0, 0, k3, 0, 0, 0, -k3, 0;
     0, 0, 0, k4, 0, 0, 0, -k4;
     -k1, 0, 0, 0, k1, 0, 0, 0;
     0, -k2, 0, 0, 0, k2, 0, 0;
     0, 0, -k3, 0, 0, 0, k3, 0;
     0, 0, 0, -k4, 0, 0, 0, k4]

/-- Damping matrix `CouplingElement.C`. -/
def CouplingElement.C (e : CouplingElement) : Matrix (Fin 8) (Fin 8) ℚ :=
  let c1 := e.ct_x
  let c2 := e.ct_y
  let c3 := e.cr_x
  let c4 := e.cr_y
  !![c1, 0, 0, 0, -c1, 0, 0, 0;
     0, c2, 0, 0, 0, -c2, 0, 0;
     0, 0, c3, 0, 0, 0, -c3, 0;
     0, 0, 0, c4, 0, 0, 0, -c4;
     -c1, 0, 0, 0, c1, 0, 0, 0;
     0, -c2, 0, 0, 0, c2, 0, 0;
     0, 0, -c3, 0, 0, 0, c3, 0;
     0, 0, 0, -c4, 0, 0, 0, c4]

/-- Gyroscopic matrix `CouplingElement.G`. -/
def CouplingElement.G (e : CouplingElement) : Matrix (Fin 8) (Fin 8) ℚ :=
  let Gl : Matrix (Fin 4) (Fin 4) ℚ :=
    !![0, 0, 0, 0;
       0, 0, 0, 0;
       0, 0, 0, e.Ip_l;
       0, 0, -e.Ip_l, 0]
  let Gr : Matrix (Fin 4) (Fin 4) ℚ :=
    !![0, 0, 0, 0;
       0, 0, 0, 0;
       0, 0, 0, e.Ip_r;
       0, 0, -e.Ip_r, 0]
  asm8 Gl Gr

/-! ### The 6-DoF coupling element -/

/-- Attribute record of `CouplingElement6DoF` exactly as `__init__`
leaves it. -/
structure CouplingElement6DoF where
  n : Option ℤ
  n_l : Option ℤ
  n_r : Option ℤ
  m_l : ℚ
  m_r : ℚ
  m : ℚ
  Ip_l : ℚ
  Ip_r : ℚ
  Id_l : ℚ
  Id_r : ℚ
  kt_x : ℚ
  kt_y : ℚ
  kt_z : ℚ
  kr_x : ℚ
  kr_y : ℚ
  kr_z : ℚ
  ct_x : ℚ
  ct_y : ℚ
  ct_z : ℚ
  cr_x : ℚ
  cr_y : ℚ
  cr_z : ℚ
  L : Option ℚ
  tag : Option String
  color : String
  o_d : ℚ
  beam_cg : ℚ
  slenderness_ratio : ℚ
  Im : ℚ

/-- Constructor `CouplingElement6DoF.__init__`. -/
def CouplingElement6DoF.init (m_l m_r Ip_l Ip_r : ℚ) (Id_l : ℚ := 0) (Id_r : ℚ := 0)
    (kt_x : ℚ := 0) (kt_y : ℚ := 0) (kt_z : ℚ := 0)
    (kr_x : ℚ := 0) (kr_y : ℚ := 0) (kr_z : ℚ := 0)
    (ct_x : ℚ := 0) (ct_y : ℚ := 0) (ct_z : ℚ := 0)
    (cr_x : ℚ := 0) (cr_y : ℚ := 0) (cr_z : ℚ := 0)
    (L : Option ℚ := none) (n : Option ℤ := none) (tag : Option String := none)
    (color : String := "#add8e6") : CouplingElement6DoF :=
  { n := n
    n_l := n
    n_r := n.map (fun k => k + 1)
    m_l := m_l
    m_r := m_r
    m := m_l + m_r
    Ip_l := Ip_l
    Ip_r := Ip_r
    Id_l := if Id_l ≠ 0 then Id_l else Ip_l / 2
    Id_r := if Id_r ≠ 0 then Id_r else Ip_r / 2
    kt_x := kt_x
    kt_y := kt_y
    kt_z := kt_z
    kr_x := kr_x
    kr_y := kr_y
    kr_z := kr_z
    ct_x := ct_x
    ct_y := ct_y
    ct_z := ct_z
    cr_x := cr_x
    cr_y := cr_y
    cr_z := cr_z
    L := L
    tag := tag
    color := color
    o_d := 150 / 1000
    beam_cg := 10 ^ 20
    slenderness_ratio := 10 ^ 30
    Im := (if Id_l ≠ 0 then Id_l else Ip_l / 2) + (if Id_r ≠ 0 then Id_r else Ip_r / 2) }

/-- Mass matrix `CouplingElement6DoF.M`. -/
def CouplingElement6DoF.M (e : CouplingElement6DoF) : Matrix (Fin 12) (Fin 12) ℚ :=
  let Ml : Matrix (Fin 6) (Fin 6) ℚ :=
    !![e.m_l, 0, 0, 0, 0, 0;
       0, e.m_l, 0, 0, 0, 0;
       0, 0, e.m_l, 0, 0, 0;
       0, 0, 0, e.Id_l, 0, 0;
       0, 0, 0, 0, e.Id_l, 0;
       0, 0, 0, 0, 0, e.Ip_l]
  let Mr : Matrix (Fin 6) (Fin 6) ℚ :=
    !![e.m_r, 0, 0, 0, 0, 0;
       0, e.m_r, 0, 0, 0, 0;
       0, 0, e.m_r, 0, 0, 0;
       0, 0, 0, e.Id_r, 0, 0;
       0, 0, 0, 0, e.Id_r, 0;
       0, 0, 0, 0, 0, e.Ip_r]
  asm12 Ml Mr

/-- Stiffness matrix `CouplingElement6DoF.K`. -/
def CouplingElement6DoF.K (e : CouplingElement6DoF) : Matrix (Fin 12) (Fin 12) ℚ :=
  let k1 := e.kt_x
  let k2 := e.kt_y
  let k3 := e.kt_z
  let k4 := e.kr_x
  let k5 := e.kr_y
  let k6 := e.kr_z
  !![k1, 0, 0, 0, 0, 0, -k1, 0, 0, 0, 0, 0;
     0, k2, 0, 0, 0, 0, 0, -k2, 0, 0, 0, 0;
     0, 0, k3, 0, 0, 0, 0, 0, -k3, 0, 0, 0;
     0, 0, 0, k4, 0, 0, 0, 0, 0, -k4, 0, 0;
     0, 0, 0, 0, k5, 0, 0, 0, 0, 0, -k5, 0;
     0, 0, 0, 0, 0, k6, 0, 0, 0, 0, 0, -k6;
     -k1, 0, 0, 0, 0, 0, k1, 0, 0, 0, 0, 0;
     0, -k2, 0, 0, 0, 0, 0, k2, 0, 0, 0, 0;
     0, 0, -k3, 0, 0, 0, 0, 0, k3, 0, 0, 0;
     0, 0, 0, -k4, 0, 0, 0, 0, 0, k4, 0, 0;
     0, 0, 0, 0, -k5, 0, 0, 0, 0, 0, k5, 0;
     0, 0, 0, 0, 0, -k6, 0, 0, 0, 0, 0, k6]

/-- Damping matrix `CouplingElement6DoF.C`. -/
def CouplingElement6DoF.C (e : CouplingElement6DoF) : Matrix (Fin 12) (Fin 12) ℚ :=
  let c1 := e.ct_x
  let c2 := e.ct_y
  let c3 := e.ct_z
  let c4 := e.cr_x
  let c5 := e.cr_y
  let c6 := e.cr_z
  !![c1, 0, 0, 0, 0, 0, -c1, 0, 0, 0, 0, 0;
     0, c2, 0, 0, 0, 0, 0, -c2, 0, 0, 0, 0;
     0, 0, c3, 0, 0, 0, 0, 0, -c3, 0, 0, 0;
     0, 0, 0, c4, 0, 0, 0, 0, 0, -c4, 0, 0;
     0, 0, 0, 0, c5, 0, 0, 0, 0, 0, -c5, 0;
     0, 0, 0, 0, 0, c6, 0, 0, 0, 0, 0, -c6;
     -c1, 0, 0, 0, 0, 0, c1, 0, 0, 0, 0, 0;
     0, -c2, 0, 0, 0, 0, 0, c2, 0, 0, 0, 0;
     0, 0, -c3, 0, 0, 0, 0, 0, c3, 0, 0, 0;
     0, 0, 0, -c4, 0, 0, 0, 0, 0, c4, 0, 0;
     0, 0, 0, 0, -c5, 0, 0, 0, 0, 0, c5, 0;
     0, 0, 0, 0, 0, -c6, 0, 0, 0, 0, 0, c6]

/-- Gyroscopic matrix `CouplingElement6DoF.G`. -/
def CouplingElement6DoF.G (e : CouplingElement6DoF) : Matrix (Fin 12) (Fin 12) ℚ :=
  let Gl : Matrix (Fin 6) (Fin 6) ℚ :=
    !![0, 0, 0, 0, 0, 0;
       0, 0, 0, 0, 0, 0;
       0, 0, 0, 0, 0, 0;
       0, 0, 0, 0, e.Ip_l, 0;
       0, 0, 0, -e.Ip_l, 0, 0;
       0, 0, 0, 0, 0, 0]
  let Gr : Matrix (Fin 6) (Fin 6) ℚ :=
    !![0, 0, 0, 0, 0, 0;
       0, 0, 0, 0, 0, 0;
       0, 0, 0, 0, 0, 0;
       0, 0, 0, 0, e.Ip_r, 0;
       0, 0, 0, -e.Ip_r, 0, 0;
       0, 0, 0, 0, 0, 0]
  asm12 Gl Gr

/-- Stiffening matrix `CouplingElement6DoF.Kst`: `np.zeros((12, 12))`. -/
def CouplingElement6DoF.Kst (_ : CouplingElement6DoF) : Matrix (Fin 12) (Fin 12) ℚ := 0

/-! ### Spec-side matrices

Modelled from the spec: the channel pattern of section 4.3, the
block-diagonal mass shape of section 4.2 and the gyroscopic shape of
section 4.5 (with the sign orientation the code actually uses). -/

/-- Channel pattern of the spec, section 4.3: the 2x2 block
`[[k, -k], [-k, k]]` scattered onto the index pair `(a, b)`. -/
def chanPat {d : ℕ} (k : ℚ) (a b : Fin d) : Matrix (Fin d) (Fin d) ℚ :=
  Matrix.of fun i j =>
    if i = a ∧ j = a then k
    else if i = a ∧ j = b then -k
    else if i = b ∧ j = a then -k
    else if i = b ∧ j = b then k
    else 0

/-- Direct sum of the four 4-DoF channel patterns (spec, section 4.3). -/
def chanSum4 (k1 k2 k3 k4 : ℚ) : Matrix (Fin 8) (Fin 8) ℚ :=
  chanPat k1 0 4 + chanPat k2 1 5 + chanPat k3 2 6 + chanPat k4 3 7

/-- Direct sum of the six 6-DoF channel patterns (spec, section 4.3). -/
def chanSum6 (k1 k2 k3 k4 k5 k6 : ℚ) : Matrix (Fin 12) (Fin 12) ℚ :=
  chanPat k1 0 6 + chanPat k2 1 7 + chanPat k3 2 8 +
    chanPat k4 3 9 + chanPat k5 4 10 + chanPat k6 5 11

/-- Block-diagonal mass shape of the spec, section 4.2 (4-DoF). -/
def massDiag4 (ml Idl mr Idr : ℚ) : Matrix (Fin 8) (Fin 8) ℚ :=
  Matrix.diagonal ![ml, ml, Idl, Idl, mr, mr, Idr, Idr]

/-- Block-diagonal mass shape of the spec, section 4.2 (6-DoF). -/
def massDiag6 (ml Idl Ipl mr Idr Ipr : ℚ) : Matrix (Fin 12) (Fin 12) ℚ :=
  Matrix.diagonal ![ml, ml, ml, Idl, Idl, Ipl, mr, mr, mr, Idr, Idr, Ipr]

/-- Gyroscopic shape (spec, section 4.5, with the code's sign
orientation): per station only the two diametral-rotation entries are
non-zero, ` +Ip` at `(rot_x, rot_y)` and `-Ip` at `(rot_y, rot_x)`. -/
def gyro4 (a b : ℚ) : Matrix (Fin 8) (Fin 8) ℚ :=
  Matrix.of fun i j =>
    if i = 2 ∧ j = 3 then a
    else if i = 3 ∧ j = 2 then -a
    else if i = 6 ∧ j = 7 then b
    else if i = 7 ∧ j = 6 then -b
    else 0

/-- Gyroscopic shape for the 6-DoF variant: diametral rotations sit at
indices 3 and 4 of each station block. -/
def gyro6 (a b : ℚ) : Matrix (Fin 12) (Fin 12) ℚ :=
  Matrix.of fun i j =>
    if i = 3 ∧ j = 4 then a
    else if i = 4 ∧ j = 3 then -a
    else if i = 9 ∧ j = 10 then b
    else if i = 10 ∧ j = 9 then -b
    else 0

/-! ### Channels as data

The spec's independent stiffness/damping channels, their coefficient,
their four matrix positions, and the element with that one coefficient
set to zero. -/

/-- Left-station index of channel `c` (4-DoF). -/
def lpos4 (c : Fin 4) : Fin 8 := ⟨(c : ℕ), by omega⟩

/-- Right-station index of channel `c` (4-DoF). -/
def rpos4 (c : Fin 4) : Fin 8 := ⟨(c : ℕ) + 4, by omega⟩

/-- Left-station index of channel `c` (6-DoF). -/
def lpos6 (c : Fin 6) : Fin 12 := ⟨(c : ℕ), by omega⟩

/-- Right-station index of channel `c` (6-DoF). -/
def rpos6 (c : Fin 6) : Fin 12 := ⟨(c : ℕ) + 6, by omega⟩

/-- Stiffness coefficient of each 4-DoF channel. -/
def kVal4 (e : CouplingElement) : Fin 4 → ℚ := ![e.kt_x, e.kt_y, e.kr_x, e.kr_y]

/-- Damping coefficient of each 4-DoF channel. -/
def cVal4 (e : CouplingElement) : Fin 4 → ℚ := ![e.ct_x, e.ct_y, e.cr_x, e.cr_y]

/-- Stiffness coefficient of each 6-DoF channel. -/
def kVal6 (e : CouplingElement6DoF) : Fin 6 → ℚ :=
  ![e.kt_x, e.kt_y, e.kt_z, e.kr_x, e.kr_y, e.kr_z]

/-- Damping coefficient of each 6-DoF channel. -/
def cVal6 (e : CouplingElement6DoF) : Fin 6 → ℚ :=
  ![e.ct_x, e.ct_y, e.ct_z, e.cr_x, e.cr_y, e.cr_z]

/-- The element with one stiffness channel zeroed (4-DoF). -/
def zeroK4 (e : CouplingElement) : Fin 4 → CouplingElement :=
  ![{ e with kt_x := 0 }, { e with kt_y := 0 }, { e with kr_x := 0 }, { e with kr_y := 0 }]

/-- The element with one damping channel zeroed (4-DoF). -/
def zeroC4 (e : CouplingElement) : Fin 4 → CouplingElement :=
  ![{ e with ct_x := 0 }, { e with ct_y := 0 }, { e with cr_x := 0 }, { e with cr_y := 0 }]

/-- The element with one stiffness channel zeroed (6-DoF). -/
def zeroK6 (e : CouplingElement6DoF) : Fin 6 → CouplingElement6DoF :=
  ![{ e with kt_x := 0 }, { e with kt_y := 0 }, { e with kt_z := 0 },
    { e with kr_x := 0 }, { e with kr_y := 0 }, { e with kr_z := 0 }]

/-- The element with one damping channel zeroed (6-DoF). -/
def zeroC6 (e : CouplingElement6DoF) : Fin 6 → CouplingElement6DoF :=
  ![{ e with ct_x := 0 }, { e with ct_y := 0 }, { e with ct_z := 0 },
    { e with cr_x := 0 }, { e with cr_y := 0 }, { e with cr_z := 0 }]

/-- Matrix with the four positions of a channel zeroed and every other
entry taken from `A`. -/
def maskChan {d : ℕ} (A : Matrix (Fin d) (Fin d) ℚ) (a b : Fin d) :
    Matrix (Fin d) (Fin d) ℚ :=
  Matrix.of fun i j =>
    if (i = a ∨ i = b) ∧ (j = a ∨ j = b) then 0 else A i j

/-! ### Concrete scenario elements from the spec, section 8 -/

/-- The element of the first concrete scenario:
`CouplingElement(m_l=1.0, m_r=1.0, Ip_l=2.0, Ip_r=2.0)`. -/
def exM : CouplingElement := CouplingElement.init 1 1 2 2

/-- The element of the second concrete scenario: `kt_x = 5.0`, every
other stiffness coefficient zero. -/
def exK : CouplingElement := CouplingElement.init 1 1 2 2 0 0 5

/-- A 6-DoF element with a single non-zero damping coefficient
`cr_z = 3`, used to instantiate the channel-independence theorem. -/
def ex6 : CouplingElement6DoF :=
  CouplingElement6DoF.init 1 1 2 2 0 0 0 0 0 0 0 0 0 0 0 0 0 3

/-! ### Characterization lemmas

Each matrix method equals its spec-side shape. -/

theorem M4_char (e : CouplingElement) :
    e.M = massDiag4 e.m_l e.Id_l e.m_r e.Id_r := by
  ext i j
  fin_cases i <;> fin_cases j <;> rfl

theorem M6_char (e : CouplingElement6DoF) :
    e.M = massDiag6 e.m_l e.Id_l e.Ip_l e.m_r e.Id_r e.Ip_r := by
  ext i j
  fin_cases i <;> fin_cases j <;> rfl

theorem G4_char (e : CouplingElement) : e.G = gyro4 e.Ip_l e.Ip_r := by
  ext i j
  fin_cases i <;> fin_cases j <;> rfl

theorem G6_char (e : CouplingElement6DoF) : e.G = gyro6 e.Ip_l e.Ip_r := by
  ext i j
  fin_cases i <;> fin_cases j <;> rfl

theorem chanShape8 (k1 k2 k3 k4 : ℚ) :
    (!![k1, 0, 0, 0, -k1, 0, 0, 0;
        0, k2, 0, 0, 0, -k2, 0, 0;
        0, 0, k3, 0, 0, 0, -k3, 0;
        0, 0, 0, k4, 0, 0, 0, -k4;
        -k1, 0, 0, 0, k1, 0, 0, 0;
        0, -k2, 0, 0, 0, k2, 0, 0;
        0, 0, -k3, 0, 0, 0, k3, 0;
        0, 0, 0, -k4, 0, 0, 0, k4] : Matrix (Fin 8) (Fin 8) ℚ)
      = chanSum4 k1 k2 k3 k4 := by
  ext i j
  fin_cases i <;> fin_cases j <;>
    simp [chanSum4, chanPat, Matrix.add_apply, -Matrix.cons_val']

set_option maxHeartbeats 1600000 in
theorem chanShape12 (k1 k2 k3 k4 k5 k6 : ℚ) :
    (!![k1, 0, 0, 0, 0, 0, -k1, 0, 0, 0, 0, 0;
        0, k2, 0, 0, 0, 0, 0, -k2, 0, 0, 0, 0;
        0, 0, k3, 0, 0, 0, 0, 0, -k3, 0, 0, 0;
        0, 0, 0, k4, 0, 0, 0, 0, 0, -k4, 0, 0;
        0, 0, 0, 0, k5, 0, 0, 0, 0, 0, -k5, 0;
        0, 0, 0, 0, 0, k6, 0, 0, 0, 0, 0, -k6;
        -k1, 0, 0, 0, 0, 0, k1, 0, 0, 0, 0, 0;
        0, -k2, 0, 0, 0, 0, 0, k2, 0, 0, 0, 0;
        0, 0, -k3, 0, 0, 0, 0, 0, k3, 0, 0, 0;
        0, 0, 0, -k4, 0, 0, 0, 0, 0, k4, 0, 0;
        0, 0, 0, 0, -k5, 0, 0, 0, 0, 0, k5, 0;
        0, 0, 0, 0, 0, -k6, 0, 0, 0, 0, 0, k6] : Matrix (Fin 12) (Fin 12) ℚ)
      = chanSum6 k1 k2 k3 k4 k5 k6 := by
  ext i j
  fin_cases i <;> fin_cases j <;>
    simp [chanSum6, chanPat, Matrix.add_apply, -Matrix.cons_val']

theorem K4_char (e : CouplingElement) :
    e.K = chanSum4 e.kt_x e.kt_y e.kr_x e.kr_y :=
  chanShape8 e.kt_x e.kt_y e.kr_x e.kr_y

theorem C4_char (e : CouplingElement) :
    e.C = chanSum4 e.ct_x e.ct_y e.cr_x e.cr_y :=
  chanShape8 e.ct_x e.ct_y e.cr_x e.cr_y

theorem K6_char (e : CouplingElement6DoF) :
    e.K = chanSum6 e.kt_x e.kt_y e.kt_z e.kr_x e.kr_y e.kr_z :=
  chanShape12 e.kt_x e.kt_y e.kt_z e.kr_x e.kr_y e.kr_z

theorem C6_char (e : CouplingElement6DoF) :
    e.C = chanSum6 e.ct_x e.ct_y e.ct_z e.cr_x e.cr_y e.cr_z :=
  chanShape12 e.ct_x e.ct_y e.ct_z e.cr_x e.cr_y e.cr_z

theorem chanPat_transpose {d : ℕ} (k : ℚ) (a b : Fin d) :
    (chanPat k a b)ᵀ = chanPat k a b := by
  ext i j
  simp only [Matrix.transpose_apply, chanPat, Matrix.of_apply]
  by_cases h1 : i = a <;> by_cases h2 : i = b <;>
    by_cases h3 : j = a <;> by_cases h4 : j = b <;>
    simp [h1, h2, h3, h4]

theorem gyro4_skew (a b : ℚ) : (gyro4 a b)ᵀ = -gyro4 a b := by
  ext i j
  fin_cases i <;> fin_cases j <;> simp [gyro4]

theorem gyro6_skew (a b : ℚ) : (gyro6 a b)ᵀ = -gyro6 a b := by
  ext i j
  fin_cases i <;> fin_cases j <;> simp [gyro6]

/-! ### Channel-zeroing lemmas

Zeroing one coefficient rewrites exactly the four positions of its
channel to zero and leaves every other entry untouched. -/

theorem zeroK4_mask (e : CouplingElement) (c : Fin 4) :
    (zeroK4 e c).K = maskChan e.K (lpos4 c) (rpos4 c) := by
  fin_cases c <;> (ext i j; fin_cases i <;> fin_cases j <;> rfl)

theorem zeroC4_mask (e : CouplingElement) (c : Fin 4) :
    (zeroC4 e c).C = maskChan e.C (lpos4 c) (rpos4 c) := by
  fin_cases c <;> (ext i j; fin_cases i <;> fin_cases j <;> rfl)

theorem zeroK6_mask (e : CouplingElement6DoF) (c : Fin 6) :
    (zeroK6 e c).K = maskChan e.K (lpos6 c) (rpos6 c) := by
  fin_cases c <;> (ext i j; fin_cases i <;> fin_cases j <;> rfl)

theorem zeroC6_mask (e : CouplingElement6DoF) (c : Fin 6) :
    (zeroC6 e c).C = maskChan e.C (lpos6 c) (rpos6 c) := by
  fin_cases c <;> (ext i j; fin_cases i <;> fin_cases j <;> rfl)

theorem K4_chan_entries (e : CouplingElement) (c : Fin 4) :
    e.K (lpos4 c) (lpos4 c) = kVal4 e c ∧ e.K (lpos4 c) (rpos4 c) = -kVal4 e c ∧
      e.K (rpos4 c) (lpos4 c) = -kVal4 e c ∧ e.K (rpos4 c) (rpos4 c) = kVal4 e c := by
  fin_cases c <;> exact ⟨rfl, rfl, rfl, rfl⟩

theorem C4_chan_entries (e : CouplingElement) (c : Fin 4) :
    e.C (lpos4 c) (lpos4 c) = cVal4 e c ∧ e.C (lpos4 c) (rpos4 c) = -cVal4 e c ∧
      e.C (rpos4 c) (lpos4 c) = -cVal4 e c ∧ e.C (rpos4 c) (rpos4 c) = cVal4 e c := by
  fin_cases c <;> exact ⟨rfl, rfl, rfl, rfl⟩

theorem K6_chan_entries (e : CouplingElement6DoF) (c : Fin 6) :
    e.K (lpos6 c) (lpos6 c) = kVal6 e c ∧ e.K (lpos6 c) (rpos6 c) = -kVal6 e c ∧
      e.K (rpos6 c) (lpos6 c) = -kVal6 e c ∧ e.K (rpos6 c) (rpos6 c) = kVal6 e c := by
  fin_cases c <;> exact ⟨rfl, rfl, rfl, rfl⟩

theorem C6_chan_entries (e : CouplingElement6DoF) (c : Fin 6) :
    e.C (lpos6 c) (lpos6 c) = cVal6 e c ∧ e.C (lpos6 c) (rpos6 c) = -cVal6 e c ∧
      e.C (rpos6 c) (lpos6 c) = -cVal6 e c ∧ e.C (rpos6 c) (rpos6 c) = cVal6 e c := by
  fin_cases c <;> exact ⟨rfl, rfl, rfl, rfl⟩

/-! ### Field values of the concrete scenario elements -/

theorem exM_param :
    exM.m_l = 1 ∧ exM.m_r = 1 ∧ exM.Ip_l = 2 ∧ exM.Ip_r = 2 ∧
      exM.Id_l = 1 ∧ exM.Id_r = 1 := by
  refine ⟨rfl, rfl, rfl, rfl, ?_, ?_⟩ <;> norm_num [exM, CouplingElement.init]

theorem exK_param :
    exK.kt_x = 5 ∧ exK.kt_y = 0 ∧ exK.kr_x = 0 ∧ exK.kr_y = 0 :=
  ⟨rfl, rfl, rfl, rfl⟩

/-! ### Claims -/

/-- C1: for every valid parameter set and for both variants, the
matrices returned by `M`, `K` and `C` each equal their own transpose,
and the matrix returned by `G` equals the negative of its own
transpose. -/
theorem claim_C1_symmetry :
    (∀ e : CouplingElement,
        e.Mᵀ = e.M ∧ e.Kᵀ = e.K ∧ e.Cᵀ = e.C ∧ e.Gᵀ = -e.G)
  ∧ (∀ e : CouplingElement6DoF,
        e.Mᵀ = e.M ∧ e.Kᵀ = e.K ∧ e.Cᵀ = e.C ∧ e.Gᵀ = -e.G) := by
  constructor
  · intro e
    refine ⟨?_, ?_, ?_, ?_⟩
    · rw [M4_char]; simp [massDiag4]
    · rw [K4_char]; simp [chanSum4, Matrix.transpose_add, chanPat_transpose]
    · rw [C4_char]; simp [chanSum4, Matrix.transpose_add, chanPat_transpose]
    · rw [G4_char]; exact gyro4_skew _ _
  · intro e
    refine ⟨?_, ?_, ?_, ?_⟩
    · rw [M6_char]; simp [massDiag6]
    · rw [K6_char]; simp [chanSum6, Matrix.transpose_add, chanPat_transpose]
    · rw [C6_char]; simp [chanSum6, Matrix.transpose_add, chanPat_transpose]
    · rw [G6_char]; exact gyro6_skew _ _

/-- C2 counterexample: the claim's concrete signs are the opposite of
what the code computes.  With `Ip_l = Ip_r = 2` the code yields
`G[2,3] = 2` (not `-2`), `G[3,2] = -2` (not `2`), and likewise at the
right station. -/
theorem claim_C2_counterexample :
    ¬(exM.G 2 3 = -2 ∧ exM.G 3 2 = 2 ∧ exM.G 6 7 = -2 ∧ exM.G 7 6 = 2) := by
  intro h
  have h1 : exM.G 2 3 = 2 := rfl
  have : (2 : ℚ) = -2 := h1.symm.trans h.1
  norm_num at this

/-- C2 amended: `G` is block diagonal and, within each station's block,
the only non-zero entries are `(rot_x, rot_y) = +Ip` and
`(rot_y, rot_x) = -Ip` with that station's polar inertia (the signs are
the mirror image of the claim's); in particular, for the 4-DoF element
with `Ip_l = Ip_r = 2` and any stiffness/damping, `G[2,3] = 2`,
`G[3,2] = -2`, `G[6,7] = 2`, `G[7,6] = -2`, and all other entries are
zero. -/
theorem claim_C2_amended :
    (∀ e : CouplingElement, e.G = gyro4 e.Ip_l e.Ip_r)
  ∧ (∀ e : CouplingElement6DoF, e.G = gyro6 e.Ip_l e.Ip_r)
  ∧ exM.G 2 3 = 2 ∧ exM.G 3 2 = -2 ∧ exM.G 6 7 = 2 ∧ exM.G 7 6 = -2
  ∧ exM.G = gyro4 2 2 :=
  ⟨G4_char, G6_char, rfl, rfl, rfl, rfl, G4_char exM⟩

/-- C3: `M` is block diagonal with zero cross-station entries; the
translational diagonal entries carry the station mass, the diametral
rotations carry `Id`, and in the 6-DoF variant the axial translation
carries `m` and the torsion carries `Ip`; off-diagonal entries are all
zero.  Concretely, `m_l = m_r = 1`, `Ip_l = Ip_r = 2` with defaulted
`Id` gives the all-ones mass diagonal. -/
theorem claim_C3_mass_shape :
    (∀ e : CouplingElement, e.M = massDiag4 e.m_l e.Id_l e.m_r e.Id_r)
  ∧ (∀ e : CouplingElement6DoF,
      e.M = massDiag6 e.m_l e.Id_l e.Ip_l e.m_r e.Id_r e.Ip_r)
  ∧ exM.M = Matrix.diagonal ![1, 1, 1, 1, 1, 1, 1, 1] := by
  refine ⟨M4_char, M6_char, ?_⟩
  rw [M4_char]
  obtain ⟨h1, h2, _, _, h5, h6⟩ := exM_param
  rw [h1, h2, h5, h6]
  rfl

/-- C4: `K` is the direct sum of the per-channel patterns
`[[k, -k], [-k, k]]` over the variant's channels, and `C` has the
identical structure with the damping coefficients. -/
theorem claim_C4_channel_sum :
    (∀ e : CouplingElement,
        e.K = chanSum4 e.kt_x e.kt_y e.kr_x e.kr_y ∧
        e.C = chanSum4 e.ct_x e.ct_y e.cr_x e.cr_y)
  ∧ (∀ e : CouplingElement6DoF,
        e.K = chanSum6 e.kt_x e.kt_y e.kt_z e.kr_x e.kr_y e.kr_z ∧
        e.C = chanSum6 e.ct_x e.ct_y e.ct_z e.cr_x e.cr_y e.cr_z) :=
  ⟨fun e => ⟨K4_char e, C4_char e⟩, fun e => ⟨K6_char e, C6_char e⟩⟩

/-- C5: a 4-DoF element with `kt_x = 5` and every other stiffness
coefficient zero has exactly four non-zero stiffness entries,
`K[0,0] = 5`, `K[0,4] = -5`, `K[4,0] = -5`, `K[4,4] = 5`. -/
theorem claim_C5_concrete_stiffness :
    exK.K = Matrix.of fun i j : Fin 8 =>
      if i = 0 ∧ j = 0 then 5
      else if i = 0 ∧ j = 4 then -5
      else if i = 4 ∧ j = 0 then -5
      else if i = 4 ∧ j = 4 then 5
      else 0 := by
  ext i j
  fin_cases i <;> fin_cases j <;> rfl

/-- C6: zeroing one stiffness (or damping) coefficient of a parameter
set in which it was non-zero changes exactly the four matrix positions
of that channel — they become zero while the original entries there
were non-zero — and leaves every other entry unchanged. -/
theorem claim_C6_channel_independence :
    (∀ (e : CouplingElement) (c : Fin 4), kVal4 e c ≠ 0 →
        (zeroK4 e c).K = maskChan e.K (lpos4 c) (rpos4 c) ∧
        e.K (lpos4 c) (lpos4 c) ≠ 0 ∧ e.K (lpos4 c) (rpos4 c) ≠ 0 ∧
        e.K (rpos4 c) (lpos4 c) ≠ 0 ∧ e.K (rpos4 c) (rpos4 c) ≠ 0)
  ∧ (∀ (e : CouplingElement) (c : Fin 4), cVal4 e c ≠ 0 →
        (zeroC4 e c).C = maskChan e.C (lpos4 c) (rpos4 c) ∧
        e.C (lpos4 c) (lpos4 c) ≠ 0 ∧ e.C (lpos4 c) (rpos4 c) ≠ 0 ∧
        e.C (rpos4 c) (lpos4 c) ≠ 0 ∧ e.C (rpos4 c) (rpos4 c) ≠ 0)
  ∧ (∀ (e : CouplingElement6DoF) (c : Fin 6), kVal6 e c ≠ 0 →
        (zeroK6 e c).K = maskChan e.K (lpos6 c) (rpos6 c) ∧
        e.K (lpos6 c) (lpos6 c) ≠ 0 ∧ e.K (lpos6 c) (rpos6 c) ≠ 0 ∧
        e.K (rpos6 c) (lpos6 c) ≠ 0 ∧ e.K (rpos6 c) (rpos6 c) ≠ 0)
  ∧ (∀ (e : CouplingElement6DoF) (c : Fin 6), cVal6 e c ≠ 0 →
        (zeroC6 e c).C = maskChan e.C (lpos6 c) (rpos6 c) ∧
        e.C (lpos6 c) (lpos6 c) ≠ 0 ∧ e.C (lpos6 c) (rpos6 c) ≠ 0 ∧
        e.C (rpos6 c) (lpos6 c) ≠ 0 ∧ e.C (rpos6 c) (rpos6 c) ≠ 0) := by
  refine ⟨fun e c h => ⟨zeroK4_mask e c, ?_, ?_, ?_, ?_⟩,
          fun e c h => ⟨zeroC4_mask e c, ?_, ?_, ?_, ?_⟩,
          fun e c h => ⟨zeroK6_mask e c, ?_, ?_, ?_, ?_⟩,
          fun e c h => ⟨zeroC6_mask e c, ?_, ?_, ?_, ?_⟩⟩
  · rw [(K4_chan_entries e c).1]; exact h
  · rw [(K4_chan_entries e c).2.1]; exact neg_ne_zero.mpr h
  · rw [(K4_chan_entries e c).2.2.1]; exact neg_ne_zero.mpr h
  · rw [(K4_chan_entries e c).2.2.2]; exact h
  · rw [(C4_chan_entries e c).1]; exact h
  · rw [(C4_chan_entries e c).2.1]; exact neg_ne_zero.mpr h
  · rw [(C4_chan_entries e c).2.2.1]; exact neg_ne_zero.mpr h
  · rw [(C4_chan_entries e c).2.2.2]; exact h
  · rw [(K6_chan_entries e c).1]; exact h
  · rw [(K6_chan_entries e c).2.1]; exact neg_ne_zero.mpr h
  · rw [(K6_chan_entries e c).2.2.1]; exact neg_ne_zero.mpr h
  · rw [(K6_chan_entries e c).2.2.2]; exact h
  · rw [(C6_chan_entries e c).1]; exact h
  · rw [(C6_chan_entries e c).2.1]; exact neg_ne_zero.mpr h
  · rw [(C6_chan_entries e c).2.2.1]; exact neg_ne_zero.mpr h
  · rw [(C6_chan_entries e c).2.2.2]; exact h

/-- C6 witness: the channel-independence theorem instantiated at the
concrete elements `exK` (stiffness channel `kt_x = 5`) and `ex6`
(damping channel `cr_z = 3`). -/
theorem claim_C6_witness :
    (kVal4 exK 0 ≠ 0 ∧ (zeroK4 exK 0).K = maskChan exK.K (lpos4 0) (rpos4 0))
  ∧ (cVal6 ex6 5 ≠ 0 ∧ (zeroC6 ex6 5).C = maskChan ex6.C (lpos6 5) (rpos6 5)) := by
  have h1 : kVal4 exK 0 ≠ 0 := by norm_num [kVal4, exK, CouplingElement.init]
  have h2 : cVal6 ex6 5 ≠ 0 := by norm_num [cVal6, ex6, CouplingElement6DoF.init]
  exact ⟨⟨h1, (claim_C6_channel_independence.1 exK 0 h1).1⟩,
         ⟨h2, (claim_C6_channel_independence.2.2.2 ex6 5 h2).1⟩⟩

/-- C7: constructing either variant with the diametral inertias left at
the Python default `0` — which is also what a caller passing an explicit
`0` supplies, so the two cases coincide — yields `Id_l = Ip_l / 2` and
`Id_r = Ip_r / 2`, already normalized in the constructed record. -/
theorem claim_C7_Id_default :
    (∀ (m_l m_r Ip_l Ip_r kt_x kt_y kr_x kr_y ct_x ct_y cr_x cr_y : ℚ)
        (L : Option ℚ) (n : Option ℤ) (tag : Option String) (color : String),
        (CouplingElement.init m_l m_r Ip_l Ip_r 0 0 kt_x kt_y kr_x kr_y
            ct_x ct_y cr_x cr_y L n tag color).Id_l = Ip_l / 2 ∧
        (CouplingElement.init m_l m_r Ip_l Ip_r 0 0 kt_x kt_y kr_x kr_y
            ct_x ct_y cr_x cr_y L n tag color).Id_r = Ip_r / 2)
  ∧ (∀ (m_l m_r Ip_l Ip_r kt_x kt_y kt_z kr_x kr_y kr_z ct_x ct_y ct_z
        cr_x cr_y cr_z : ℚ)
        (L : Option ℚ) (n : Option ℤ) (tag : Option String) (color : String),
        (CouplingElement6DoF.init m_l m_r Ip_l Ip_r 0 0 kt_x kt_y kt_z
            kr_x kr_y kr_z ct_x ct_y ct_z cr_x cr_y cr_z L n tag color).Id_l
          = Ip_l / 2 ∧
        (CouplingElement6DoF.init m_l m_r Ip_l Ip_r 0 0 kt_x kt_y kt_z
            kr_x kr_y kr_z ct_x ct_y ct_z cr_x cr_y cr_z L n tag color).Id_r
          = Ip_r / 2) := by
  constructor
  · intros
    exact ⟨by simp [CouplingElement.init], by simp [CouplingElement.init]⟩
  · intros
    exact ⟨by simp [CouplingElement6DoF.init], by simp [CouplingElement6DoF.init]⟩

/-- C8: each 4-DoF matrix method returns an 8x8 matrix and each 6-DoF
method a 12x12 matrix — in this embedding the dimension contract is the
return type `Matrix (Fin 8) (Fin 8) ℚ` resp. `Matrix (Fin 12) (Fin 12) ℚ`,
which the well-typed sums below exhibit — and `Kst` of the 6-DoF variant
is exactly the 12x12 zero matrix for every element. -/
theorem claim_C8_dimensions :
    (∀ e : CouplingElement6DoF, e.Kst = 0)
  ∧ (∀ e : CouplingElement,
      e.M + e.K + e.C + e.G ∈ (Set.univ : Set (Matrix (Fin 8) (Fin 8) ℚ)))
  ∧ (∀ e : CouplingElement6DoF,
      e.M + e.K + e.C + e.G + e.Kst
        ∈ (Set.univ : Set (Matrix (Fin 12) (Fin 12) ℚ))) :=
  ⟨fun _ => rfl, fun _ => Set.mem_univ _, fun _ => Set.mem_univ _⟩

/-- C9: construction applies no sign or range validation — it is a total
function on arbitrary rational inputs, negative ones included — and the
raw inputs propagate unchanged into the constructed fields and into the
matrices `M`, `K`, `C`, `G` (the `Id` fields under the truthiness guard
`Id ≠ 0`, which negative values satisfy). -/
theorem claim_C9_no_validation :
    (∀ (m_l m_r Ip_l Ip_r Id_l Id_r kt_x kt_y kr_x kr_y ct_x ct_y cr_x cr_y : ℚ)
        (L : Option ℚ) (n : Option ℤ) (tag : Option String) (color : String)
        (e : CouplingElement),
        e = CouplingElement.init m_l m_r Ip_l Ip_r Id_l Id_r kt_x kt_y kr_x kr_y
              ct_x ct_y cr_x cr_y L n tag color →
        Id_l ≠ 0 → Id_r ≠ 0 →
        e.m_l = m_l ∧ e.m_r = m_r ∧ e.Ip_l = Ip_l ∧ e.Ip_r = Ip_r ∧
        e.Id_l = Id_l ∧ e.Id_r = Id_r ∧
        e.kt_x = kt_x ∧ e.kt_y = kt_y ∧ e.kr_x = kr_x ∧ e.kr_y = kr_y ∧
        e.ct_x = ct_x ∧ e.ct_y = ct_y ∧ e.cr_x = cr_x ∧ e.cr_y = cr_y ∧
        e.M = massDiag4 m_l Id_l m_r Id_r ∧
        e.K = chanSum4 kt_x kt_y kr_x kr_y ∧
        e.C = chanSum4 ct_x ct_y cr_x cr_y ∧
        e.G = gyro4 Ip_l Ip_r)
  ∧ (∀ (m_l m_r Ip_l Ip_r Id_l Id_r kt_x kt_y kt_z kr_x kr_y kr_z
        ct_x ct_y ct_z cr_x cr_y cr_z : ℚ)
        (L : Option ℚ) (n : Option ℤ) (tag : Option String) (color : String)
        (e : CouplingElement6DoF),
        e = CouplingElement6DoF.init m_l m_r Ip_l Ip_r Id_l Id_r kt_x kt_y kt_z
              kr_x kr_y kr_z ct_x ct_y ct_z cr_x cr_y cr_z L n tag color →
        Id_l ≠ 0 → Id_r ≠ 0 →
        e.m_l = m_l ∧ e.m_r = m_r ∧ e.Ip_l = Ip_l ∧ e.Ip_r = Ip_r ∧
        e.Id_l = Id_l ∧ e.Id_r = Id_r ∧
        e.kt_x = kt_x ∧ e.kt_y = kt_y ∧ e.kt_z = kt_z ∧
        e.kr_x = kr_x ∧ e.kr_y = kr_y ∧ e.kr_z = kr_z ∧
        e.ct_x = ct_x ∧ e.ct_y = ct_y ∧ e.ct_z = ct_z ∧
        e.cr_x = cr_x ∧ e.cr_y = cr_y ∧ e.cr_z = cr_z ∧
        e.M = massDiag6 m_l Id_l Ip_l m_r Id_r Ip_r ∧
        e.K = chanSum6 kt_x kt_y kt_z kr_x kr_y kr_z ∧
        e.C = chanSum6 ct_x ct_y ct_z cr_x cr_y cr_z ∧
        e.G = gyro6 Ip_l Ip_r) := by
  constructor
  · intro m_l m_r Ip_l Ip_r Id_l Id_r kt_x kt_y kr_x kr_y ct_x ct_y cr_x cr_y
      L n tag color e he h1 h2
    subst he
    refine ⟨rfl, rfl, rfl, rfl, ?_, ?_, rfl, rfl, rfl, rfl, rfl, rfl, rfl, rfl,
        ?_, ?_, ?_, ?_⟩
    · simp [CouplingElement.init, h1]
    · simp [CouplingElement.init, h2]
    · rw [M4_char]; simp [CouplingElement.init, h1, h2]
    · exact K4_char _
    · exact C4_char _
    · exact G4_char _
  · intro m_l m_r Ip_l Ip_r Id_l Id_r kt_x kt_y kt_z kr_x kr_y kr_z
      ct_x ct_y ct_z cr_x cr_y cr_z L n tag color e he h1 h2
    subst he
    refine ⟨rfl, rfl, rfl, rfl, ?_, ?_, rfl, rfl, rfl, rfl, rfl, rfl, rfl, rfl,
        rfl, rfl, rfl, rfl, ?_, ?_, ?_, ?_⟩
    · simp [CouplingElement6DoF.init, h1]
    · simp [CouplingElement6DoF.init, h2]
    · rw [M6_char]; simp [CouplingElement6DoF.init, h1, h2]
    · exact K6_char _
    · exact C6_char _
    · exact G6_char _

/-- C9 witness: the no-validation theorem instantiated at all-negative
inputs for both variants; construction goes through and the negative
values are kept. -/
theorem claim_C9_witness :
    ((-5 : ℚ) ≠ 0 ∧ (-6 : ℚ) ≠ 0 ∧
      (CouplingElement.init (-1) (-2) (-3) (-4) (-5) (-6) (-7) (-8) (-9) (-10)
          (-11) (-12) (-13) (-14) none none none "#add8e6").Id_l = -5 ∧
      (CouplingElement.init (-1) (-2) (-3) (-4) (-5) (-6) (-7) (-8) (-9) (-10)
          (-11) (-12) (-13) (-14) none none none "#add8e6").K
        = chanSum4 (-7) (-8) (-9) (-10))
  ∧ ((-5 : ℚ) ≠ 0 ∧ (-6 : ℚ) ≠ 0 ∧
      (CouplingElement6DoF.init (-1) (-2) (-3) (-4) (-5) (-6) (-7) (-8) (-9)
          (-10) (-11) (-12) (-13) (-14) (-15) (-16) (-17) (-18)
          none none none "#add8e6").Id_r = -6 ∧
      (CouplingElement6DoF.init (-1) (-2) (-3) (-4) (-5) (-6) (-7) (-8) (-9)
          (-10) (-11) (-12) (-13) (-14) (-15) (-16) (-17) (-18)
          none none none "#add8e6").G = gyro6 (-3) (-4)) := by
  have h1 : (-5 : ℚ) ≠ 0 := by norm_num
  have h2 : (-6 : ℚ) ≠ 0 := by norm_num
  have a4 := claim_C9_no_validation.1 (-1) (-2) (-3) (-4) (-5) (-6) (-7) (-8)
    (-9) (-10) (-11) (-12) (-13) (-14) none none none "#add8e6" _ rfl h1 h2
  have a6 := claim_C9_no_validation.2 (-1) (-2) (-3) (-4) (-5) (-6) (-7) (-8)
    (-9) (-10) (-11) (-12) (-13) (-14) (-15) (-16) (-17) (-18)
    none none none "#add8e6" _ rfl h1 h2
  exact ⟨⟨h1, h2, a4.2.2.2.2.1, a4.2.2.2.2.2.2.2.2.2.2.2.2.2.2.2.1⟩,
         ⟨h1, h2, a6.2.2.2.2.2.1,
          a6.2.2.2.2.2.2.2.2.2.2.2.2.2.2.2.2.2.2.2.2.2⟩⟩

/-- C10: construction always stores the sentinel values
`beam_cg = 1e20` and `slenderness_ratio = 1e30` in both variants, and
the 6-DoF constructor additionally stores the hard-coded outer diameter
`o_d = 150e-3`, independently of every input. -/
theorem claim_C10_sentinels :
    (∀ (m_l m_r Ip_l Ip_r Id_l Id_r kt_x kt_y kr_x kr_y ct_x ct_y cr_x cr_y : ℚ)
        (L : Option ℚ) (n : Option ℤ) (tag : Option String) (color : String),
        (CouplingElement.init m_l m_r Ip_l Ip_r Id_l Id_r kt_x kt_y kr_x kr_y
            ct_x ct_y cr_x cr_y L n tag color).beam_cg = 10 ^ 20 ∧
        (CouplingElement.init m_l m_r Ip_l Ip_r Id_l Id_r kt_x kt_y kr_x kr_y
            ct_x ct_y cr_x cr_y L n tag color).slenderness_ratio = 10 ^ 30)
  ∧ (∀ (m_l m_r Ip_l Ip_r Id_l Id_r kt_x kt_y kt_z kr_x kr_y kr_z
        ct_x ct_y ct_z cr_x cr_y cr_z : ℚ)
        (L : Option ℚ) (n : Option ℤ) (tag : Option String) (color : String),
        (CouplingElement6DoF.init m_l m_r Ip_l Ip_r Id_l Id_r kt_x kt_y kt_z
            kr_x kr_y kr_z ct_x ct_y ct_z cr_x cr_y cr_z L n tag
            color).beam_cg = 10 ^ 20 ∧
        (CouplingElement6DoF.init m_l m_r Ip_l Ip_r Id_l Id_r kt_x kt_y kt_z
            kr_x kr_y kr_z ct_x ct_y ct_z cr_x cr_y cr_z L n tag
            color).slenderness_ratio = 10 ^ 30 ∧
        (CouplingElement6DoF.init m_l m_r Ip_l Ip_r Id_l Id_r kt_x kt_y kt_z
            kr_x kr_y kr_z ct_x ct_y ct_z cr_x cr_y cr_z L n tag
            color).o_d = 150 / 1000) :=
  ⟨fun _ _ _ _ _ _ _ _ _ _ _ _ _ _ _ _ _ _ => ⟨rfl, rfl⟩,
   fun _ _ _ _ _ _ _ _ _ _ _ _ _ _ _ _ _ _ _ _ _ _ => ⟨rfl, rfl, rfl⟩⟩

end Ross
